import Mathlib

/-!
Shallow embedding of `src/day-01_finance_tracker.py` (a single-file personal
finance tracker).  The in-memory ledger `self.transactions` is a Lean
`List Transaction`; the JSON data file is modelled by `Store`; I/O failure of
a save is modelled by an explicit `SaveOutcome` parameter.  Monetary amounts
(Python floats holding decimal inputs) are modelled as exact rationals `Rat`;
the textual rendering of a number in the CSV export is abstracted by
`toString`.  Console printing is modelled only insofar as it carries
information: the guarded early returns of `show_transactions`, `show_summary`
and `export_to_csv` become `Option` results (`none` = the "nothing to show"
message branch), and the load/save status messages become `LoadResult` /
`SaveResult` values.
-/

/-- The `type` field of a transaction record: the strings `"income"` and
`"expense"` assigned in `add_transaction` (lines 59-64). -/
inductive TxType where
  | income
  | expense
deriving DecidableEq, Repr

/-- String form of the `type` field, as stored in the JSON file and written
to the CSV export. -/
def TxType.toStr : TxType → String
  | .income => "income"
  | .expense => "expense"

/-- One transaction record, mirroring the dictionary built at lines 70-76:
`id`, `date`, `description`, `amount`, `type`. -/
structure Transaction where
  id : Nat
  date : String
  description : String
  amount : Rat
  type : TxType
deriving DecidableEq, Repr

/-- The persisted data file (`finances.json`).  `absent`: the file does not
exist (line 19 test fails).  `corrupt`: the file exists but reading or
parsing it raises (the `except` branch of `load_data`, lines 24-26).
`parsed`: the file exists and parses as a JSON array of transaction records;
the records' field values are arbitrary, since `load_data` performs no
validation (line 22 assigns `json.load(f)` directly). -/
inductive Store where
  | absent
  | corrupt (reason : String)
  | parsed (records : List Transaction)
deriving DecidableEq, Repr

/-- Status reported by `load_data` via its console messages: "No existing
data file found" (line 28), "Loaded N transactions" (line 23), or
"Error loading data" (line 25). -/
inductive LoadResult where
  | noFile
  | loaded (n : Nat)
  | loadError (reason : String)
deriving DecidableEq, Repr

/-- True exactly for the `loadError` status. -/
def LoadResult.isError : LoadResult → Bool
  | .loadError _ => true
  | _ => false

/-- `load_data` (lines 17-28): if the file exists and parses, replace the
in-memory list with its records; if parsing raises, reset to the empty list;
if the file is absent, leave the list as it was. -/
def load_data (prev : List Transaction) (store : Store) :
    List Transaction × LoadResult :=
  match store with
  | .absent => (prev, .noFile)
  | .corrupt r => ([], .loadError r)
  | .parsed recs => (recs, .loaded recs.length)

/-- `__init__` (lines 13-15): start from the empty list, then `load_data`. -/
def initTracker (store : Store) : List Transaction × LoadResult :=
  load_data [] store

/-- Whether the `json.dump` at line 34 succeeds or raises.  On failure the
file may have been truncated or partially written by the `open(..., 'w')`,
so the outcome carries whatever the store is left holding. -/
inductive SaveOutcome where
  | ok
  | ioError (reason : String) (leftover : Store)

/-- Status reported by `save_data`: "Data saved successfully" (line 35) or
"Error saving data" (line 37). -/
inductive SaveResult where
  | saved
  | saveError (reason : String)
deriving DecidableEq, Repr

/-- `save_data` (lines 30-37): serialize the whole in-memory list to the
file.  Neither branch touches `self.transactions`. -/
def save_data (ts : List Transaction) (outcome : SaveOutcome) :
    List Transaction × Store × SaveResult :=
  match outcome with
  | .ok => (ts, .parsed ts, .saved)
  | .ioError r leftover => (ts, leftover, .saveError r)

/-- The description acquisition at line 44: `input("Description: ").strip()`.
Surrounding whitespace is removed; the result may be empty. -/
def read_description (raw : String) : String :=
  raw.trim

/-- `add_transaction` (lines 39-79), after the CLI loops have produced a
description, an amount and a type choice: for an expense the amount is
negated (line 64); the record gets `id = len(self.transactions) + 1`
(line 71) and the current clock string (line 72), and is appended at the
end (line 78).  Returns the new list and the constructed record. -/
def add_transaction (ts : List Transaction) (description : String)
    (amount : Rat) (ttype : TxType) (now : String) :
    List Transaction × Transaction :=
  let stored : Rat :=
    match ttype with
    | .income => amount
    | .expense => -amount
  let t : Transaction :=
    { id := ts.length + 1
      date := now
      description := description
      amount := stored
      type := ttype }
  (ts ++ [t], t)

/-- `total_income` (line 112): sum of the amounts strictly greater than 0. -/
def total_income (ts : List Transaction) : Rat :=
  ((ts.filter fun t => decide (0 < t.amount)).map fun t => t.amount).sum

/-- `total_expenses` (line 113): absolute value of the sum of the amounts
strictly less than 0. -/
def total_expenses (ts : List Transaction) : Rat :=
  abs (((ts.filter fun t => decide (t.amount < 0)).map fun t => t.amount).sum)

/-- `balance` (line 114): `total_income - total_expenses`. -/
def balance (ts : List Transaction) : Rat :=
  total_income ts - total_expenses ts

/-- The three figures printed by the financial summary (lines 119-121). -/
structure Summary where
  total_income : Rat
  total_expenses : Rat
  balance : Rat
deriving DecidableEq, Repr

/-- `show_summary` (lines 106-130): on an empty list it prints
"No transactions to summarize" and returns (lines 108-110), producing no
figures; otherwise it computes and prints the three totals. -/
def show_summary (ts : List Transaction) : Option Summary :=
  if ts.isEmpty then none
  else some { total_income := total_income ts
              total_expenses := total_expenses ts
              balance := balance ts }

/-- One display row of `show_transactions` (line 102), keeping only the
fields shown: id, date truncated to 19 characters, description truncated to
23 characters, amount. -/
def display_row (t : Transaction) : Nat × String × String × Rat :=
  (t.id, t.date.take 19, t.description.take 23, t.amount)

/-- `show_transactions` (lines 84-104): on an empty list it prints
"No transactions found" and returns (lines 86-88); otherwise one row per
transaction, in list order. -/
def show_transactions (ts : List Transaction) :
    Option (List (Nat × String × String × Rat)) :=
  if ts.isEmpty then none
  else some (ts.map display_row)

/-- One CSV data row (line 143): the five field values joined by commas by
an f-string, with no quoting or escaping whatsoever. -/
def csv_row (t : Transaction) : String :=
  toString t.id ++ "," ++ t.date ++ "," ++ t.description ++ ","
    ++ toString t.amount ++ "," ++ t.type.toStr

/-- `export_to_csv` (lines 132-146): on an empty list it prints
"No transactions to export" and returns (lines 134-136); otherwise the file
receives the header line (line 141) followed by one `csv_row` per
transaction in list order (lines 142-143). -/
def export_to_csv (ts : List Transaction) : Option (List String) :=
  if ts.isEmpty then none
  else some ("ID,Date,Description,Amount,Type" :: ts.map csv_row)

/-- The documented agreement between the `type` label and the sign of the
stored amount. -/
def signOk (t : Transaction) : Prop :=
  (t.type = TxType.expense → t.amount ≤ 0) ∧
  (t.type = TxType.income → 0 ≤ t.amount)

/-- Every transaction of the ledger satisfies `signOk`. -/
def signInvariant (ts : List Transaction) : Prop :=
  ∀ t ∈ ts, signOk t

/-- The ids of the ledger are exactly `1, 2, ..., length`, in order. -/
def idsCanonical (ts : List Transaction) : Prop :=
  ts.map (fun t => t.id) = List.range' 1 ts.length

/-- A store record whose `type` label contradicts the sign of its amount;
`load_data` accepts it unexamined. -/
def badSignTx : Transaction :=
  { id := 1
    date := "2024-01-01 00:00:00"
    description := "oops"
    amount := -1
    type := TxType.income }

/-- A store whose single record already carries id 2. -/
def dupIdStore : Store :=
  .parsed [{ id := 2
             date := "2024-01-01 00:00:00"
             description := "old"
             amount := 5
             type := TxType.income }]

/-- The scenario ledger of the spec: a 4.50 expense followed by a 2000.00
income, built through `add_transaction`. -/
def demoTs : List Transaction :=
  (add_transaction
    (add_transaction [] "Coffee" (9/2) TxType.expense "2024-01-01 09:00:00").1
    "Paycheck" 2000 TxType.income "2024-01-05 09:00:00").1

theorem filter_neg_sum_nonpos (ts : List Transaction) :
    ((ts.filter fun t => decide (t.amount < 0)).map fun t => t.amount).sum ≤ 0 := by
  induction ts with
  | nil => simp
  | cons t ts ih =>
    by_cases h : t.amount < 0
    · have hle := le_of_lt h
      simp [List.filter_cons, h]
      linarith
    · simp [List.filter_cons, h]
      exact ih

theorem total_expenses_eq_neg (ts : List Transaction) :
    total_expenses ts
      = -(((ts.filter fun t => decide (t.amount < 0)).map fun t => t.amount).sum) := by
  unfold total_expenses
  exact abs_of_nonpos (filter_neg_sum_nonpos ts)

theorem pos_add_neg_eq_sum (ts : List Transaction) :
    ((ts.filter fun t => decide (0 < t.amount)).map fun t => t.amount).sum
      + ((ts.filter fun t => decide (t.amount < 0)).map fun t => t.amount).sum
      = (ts.map fun t => t.amount).sum := by
  induction ts with
  | nil => simp
  | cons t ts ih =>
    rcases lt_trichotomy t.amount 0 with hneg | hzero | hpos
    · have hnp : ¬ (0 < t.amount) := not_lt_of_gt hneg
      simp [List.filter_cons, hneg, hnp]
      linarith
    · have hnp : ¬ (0 < t.amount) := by rw [hzero]; exact lt_irrefl 0
      have hnn : ¬ (t.amount < 0) := by rw [hzero]; exact lt_irrefl 0
      simp [List.filter_cons, hnp, hnn, hzero]
      linarith
    · have hnn : ¬ (t.amount < 0) := not_lt_of_gt hpos
      simp [List.filter_cons, hpos, hnn]
      linarith

/-- C1: for every sequence of transactions, the summary's totals are the sum
of the strictly positive amounts and the absolute value of the sum of the
strictly negative amounts (a zero amount enters neither), the balance is
their difference, and the balance equals the raw sum of all amounts; on a
non-empty sequence `show_summary` reports exactly these three figures. -/
theorem summarize_spec (ts : List Transaction) :
    balance ts = total_income ts - total_expenses ts ∧
    balance ts = (ts.map fun t => t.amount).sum ∧
    (∀ t : Transaction, t.amount = 0 →
      total_income (t :: ts) = total_income ts ∧
      total_expenses (t :: ts) = total_expenses ts) ∧
    (ts.isEmpty = false →
      show_summary ts
        = some { total_income := total_income ts
                 total_expenses := total_expenses ts
                 balance := balance ts }) := by
  refine ⟨rfl, ?_, ?_, ?_⟩
  · unfold balance total_income
    rw [total_expenses_eq_neg, sub_neg_eq_add, pos_add_neg_eq_sum]
  · intro t h0
    have hnp : ¬ (0 < t.amount) := by rw [h0]; exact lt_irrefl 0
    have hnn : ¬ (t.amount < 0) := by rw [h0]; exact lt_irrefl 0
    constructor
    · unfold total_income
      simp [List.filter_cons, hnp]
    · unfold total_expenses
      simp [List.filter_cons, hnn]
  · intro h
    unfold show_summary
    rw [h]
    rfl

/-- C1 witness: the summary identities at the concrete two-element ledger
of the spec scenario. -/
theorem summarize_spec_witness :
    show_summary demoTs
      = some { total_income := total_income demoTs
               total_expenses := total_expenses demoTs
               balance := balance demoTs } ∧
    balance demoTs = (demoTs.map fun t => t.amount).sum :=
  ⟨(summarize_spec demoTs).2.2.2 rfl, (summarize_spec demoTs).2.1⟩

/-- C2: `add_transaction` appends exactly one record at the end of the
sequence (so the length grows by exactly 1 and insertion order is
preserved) and gives the new record id `previous length + 1`. -/
theorem add_transaction_appends (ts : List Transaction) (d : String)
    (a : Rat) (k : TxType) (now : String) :
    (add_transaction ts d a k now).1.length = ts.length + 1 ∧
    (add_transaction ts d a k now).1 = ts ++ [(add_transaction ts d a k now).2] ∧
    (add_transaction ts d a k now).2.id = ts.length + 1 := by
  refine ⟨?_, rfl, rfl⟩
  simp [add_transaction]

/-- C4: a successful save writes the whole in-memory sequence to the store,
and a fresh hydrate from that untouched store reproduces exactly the same
sequence, field for field and in the same order. -/
theorem persist_hydrate_roundtrip (ts : List Transaction) :
    (save_data ts SaveOutcome.ok).2.1 = Store.parsed ts ∧
    (save_data ts SaveOutcome.ok).2.2 = SaveResult.saved ∧
    (load_data [] (save_data ts SaveOutcome.ok).2.1).1 = ts :=
  ⟨rfl, rfl, rfl⟩

/-- C6: hydrating from a corrupted store reports the load error and leaves
the in-memory sequence empty, and a subsequent append succeeds with id 1;
hydrating a fresh tracker from an absent store leaves the sequence empty
with a status that is not an error. -/
theorem hydrate_error_recovery (prev : List Transaction) (r : String)
    (d : String) (a : Rat) (k : TxType) (now : String) :
    (load_data prev (Store.corrupt r)).2 = LoadResult.loadError r ∧
    (load_data prev (Store.corrupt r)).1 = [] ∧
    (add_transaction (load_data prev (Store.corrupt r)).1 d a k now).2.id = 1 ∧
    (add_transaction (load_data prev (Store.corrupt r)).1 d a k now).1.length = 1 ∧
    (initTracker Store.absent).1 = [] ∧
    (initTracker Store.absent).2 = LoadResult.noFile ∧
    LoadResult.isError (initTracker Store.absent).2 = false :=
  ⟨rfl, rfl, rfl, rfl, rfl, rfl, rfl⟩

/-- C7: a failed save leaves the in-memory sequence exactly unchanged,
reports the save error, and a later successful save from that state writes
the full current data. -/
theorem save_failure_preserves_memory (ts : List Transaction) (r : String)
    (leftover : Store) :
    (save_data ts (SaveOutcome.ioError r leftover)).1 = ts ∧
    (save_data ts (SaveOutcome.ioError r leftover)).2.2 = SaveResult.saveError r ∧
    (save_data (save_data ts (SaveOutcome.ioError r leftover)).1
        SaveOutcome.ok).2.1 = Store.parsed ts :=
  ⟨rfl, rfl, rfl⟩

/-- C9: the core append performs no validation of the description: the CLI
merely trims surrounding whitespace, and `add_transaction` succeeds on every
description, the empty one included, storing it unchanged. -/
theorem append_no_validation (ts : List Transaction) (raw : String)
    (a : Rat) (k : TxType) (now : String) :
    (add_transaction ts (read_description raw) a k now).2.description = raw.trim ∧
    (add_transaction ts (read_description raw) a k now).1.length = ts.length + 1 ∧
    (add_transaction ts "" a k now).2.description = "" ∧
    (add_transaction ts "" a k now).1
      = ts ++ [(add_transaction ts "" a k now).2] := by
  refine ⟨rfl, ?_, rfl, rfl⟩
  simp [add_transaction]

/-- C3 counterexample: hydrating from a store whose single record is labeled
`income` but carries a negative amount installs that record unexamined, so
the operation `load_data` does not preserve the kind/sign agreement. -/
theorem hydrate_breaks_sign_invariant :
    (load_data [] (Store.parsed [badSignTx])).1 = [badSignTx] ∧
    badSignTx.type = TxType.income ∧
    badSignTx.amount < 0 :=
  ⟨rfl, rfl, by norm_num [badSignTx]⟩

/-- C3 (amended): an append with positive magnitude stores the negation of
the magnitude for an expense (hence a non-positive amount) and the magnitude
itself for an income (hence a non-negative amount), and append preserves the
kind/sign agreement of the whole ledger; hydrate, which copies store records
without validation, is excluded. -/
theorem append_sign_invariant (ts : List Transaction) (d : String) (a : Rat)
    (k : TxType) (now : String) (hpos : 0 < a) (hinv : signInvariant ts) :
    (k = TxType.expense → (add_transaction ts d a k now).2.amount = -a ∧
      (add_transaction ts d a k now).2.amount ≤ 0) ∧
    (k = TxType.income → (add_transaction ts d a k now).2.amount = a ∧
      0 ≤ (add_transaction ts d a k now).2.amount) ∧
    signInvariant (add_transaction ts d a k now).1 := by
  have hle : (0 : Rat) ≤ a := le_of_lt hpos
  have hneg : -a ≤ (0 : Rat) := neg_nonpos.mpr hle
  refine ⟨?_, ?_, ?_⟩
  · intro hk
    subst hk
    exact ⟨rfl, hneg⟩
  · intro hk
    subst hk
    exact ⟨rfl, hle⟩
  · intro t' ht'
    rcases List.mem_append.mp ht' with h | h
    · exact hinv t' h
    · have ht : t' = (add_transaction ts d a k now).2 := List.mem_singleton.mp h
      subst ht
      cases k with
      | income => exact ⟨fun hc => TxType.noConfusion hc, fun _ => hle⟩
      | expense => exact ⟨fun _ => hneg, fun hc => TxType.noConfusion hc⟩

/-- C3 witness: the sign invariant holds after appending a concrete expense
to the empty ledger. -/
theorem append_sign_invariant_witness :
    signInvariant
      (add_transaction [] "Coffee" (9/2) TxType.expense "2024-01-01 09:00:00").1 :=
  (append_sign_invariant [] "Coffee" (9/2) TxType.expense "2024-01-01 09:00:00"
    (by norm_num) (fun t ht => absurd ht (List.not_mem_nil t))).2.2

/-- C5 counterexample: on the empty ledger `show_summary` takes the
"No transactions to summarize" branch and produces no figures at all, rather
than an all-zero summary; `show_transactions` likewise produces nothing. -/
theorem show_summary_empty_none :
    show_summary ([] : List Transaction) = none ∧
    show_transactions ([] : List Transaction) = none :=
  ⟨rfl, rfl⟩

/-- C5 (amended): a freshly initialized tracker with no data file holds the
empty sequence; on it, `show_transactions` and `show_summary` report their
"nothing to show" branches without error, and the three total formulas of
the summary each evaluate to zero on the empty sequence. -/
theorem empty_ledger_behavior :
    (initTracker Store.absent).1 = [] ∧
    show_transactions ([] : List Transaction) = none ∧
    show_summary ([] : List Transaction) = none ∧
    total_income [] = 0 ∧ total_expenses [] = 0 ∧ balance [] = 0 := by
  refine ⟨rfl, rfl, rfl, ?_, ?_, ?_⟩
  · simp [total_income]
  · simp [total_expenses]
  · simp [balance, total_income, total_expenses]

/-- C8: on a non-empty ledger the export consists of the exact header line
followed by one row per transaction in insertion order, each row being the
id, date, description, amount and type joined by commas with no quoting or
escaping. -/
theorem export_csv_format (ts : List Transaction) (h : ts.isEmpty = false) :
    export_to_csv ts
      = some ("ID,Date,Description,Amount,Type" :: ts.map csv_row) ∧
    (ts.map csv_row).length = ts.length ∧
    ∀ t ∈ ts, csv_row t
      = toString t.id ++ "," ++ t.date ++ "," ++ t.description ++ ","
        ++ toString t.amount ++ "," ++ t.type.toStr := by
  refine ⟨?_, by simp, fun t _ => rfl⟩
  unfold export_to_csv
  rw [h]
  rfl

/-- C8 witness: the export of the concrete two-element demo ledger. -/
theorem export_csv_format_witness :
    export_to_csv demoTs
      = some ("ID,Date,Description,Amount,Type" :: demoTs.map csv_row) :=
  (export_csv_format demoTs rfl).1

/-- C10: when the ledger's ids are exactly 1..length, append preserves that
property (the fresh id is length + 1); but hydrating from a store whose ids
are not canonical — here a single record with id 2 — followed by one append
yields two transactions that share id 2. -/
theorem id_uniqueness_conditional :
    (∀ (ts : List Transaction) (d : String) (a : Rat) (k : TxType)
        (now : String),
      idsCanonical ts → idsCanonical (add_transaction ts d a k now).1) ∧
    ((add_transaction (load_data [] dupIdStore).1 "new" 1 TxType.income
        "2024-01-02 00:00:00").1.map fun t => t.id) = [2, 2] := by
  constructor
  · intro ts d a k now hc
    unfold idsCanonical at hc ⊢
    have hlist : (add_transaction ts d a k now).1.map (fun t => t.id)
        = ts.map (fun t => t.id) ++ [ts.length + 1] := by
      simp [add_transaction]
    have hlen : (add_transaction ts d a k now).1.length = ts.length + 1 := by
      simp [add_transaction]
    rw [hlist, hlen, hc]
    have h1 : ([ts.length + 1] : List Nat) = List.range' (1 + ts.length) 1 := by
      rw [List.range'_one, Nat.add_comm]
    rw [h1, List.range'_append_1]
    congr 1
    omega
  · rfl

/-- C10 witness: appending to the canonically-numbered empty ledger keeps
the ids canonical. -/
theorem id_uniqueness_conditional_witness :
    idsCanonical
      (add_transaction [] "first" 1 TxType.income "2024-01-01 00:00:00").1 :=
  (id_uniqueness_conditional).1 [] "first" 1 TxType.income
    "2024-01-01 00:00:00" rfl
